import Mathlib

set_option maxRecDepth 10000

/-!
# Verification of the `cacerts` trust-bootstrap package

A shallow embedding of the Go package `cacerts` (rancherd): the CA-bundle
retrieval-and-verification protocol (`CACerts`), the trusted fetch (`get`,
`Get`, `MachineGet`) and the artifact builder (`ToFile`), together with the
hashing helpers (`hash`, `hashHex`, `hashBase64`) and the cryptographic
primitives they use (SHA-256, SHA-512, HMAC, base64, hex), all as executable
Lean definitions.  Bytes are `Nat` values `< 256`; machine words are `Nat`
reduced by explicit `% 2^32` / `% 2^64`.  Network and randomness effects are
modelled by an oracle structure `World` supplying the outcome of each
external call.
-/

namespace Cacerts

/-- 2^32, the modulus for 32-bit words. -/
def M32 : Nat := 4294967296

/-- 2^64, the modulus for 64-bit words. -/
def M64 : Nat := 18446744073709551616

/-! ## Byte-level helpers -/

/-- UTF-8 encoding of a single code point, as byte values. -/
def utf8Bytes (c : Nat) : List Nat :=
  if c < 0x80 then [c]
  else if c < 0x800 then [0xc0 ||| (c >>> 6), 0x80 ||| (c &&& 0x3f)]
  else if c < 0x10000 then
    [0xe0 ||| (c >>> 12), 0x80 ||| ((c >>> 6) &&& 0x3f), 0x80 ||| (c &&& 0x3f)]
  else
    [0xf0 ||| (c >>> 18), 0x80 ||| ((c >>> 12) &&& 0x3f),
     0x80 ||| ((c >>> 6) &&& 0x3f), 0x80 ||| (c &&& 0x3f)]

/-- Go's `[]byte(s)` conversion: the UTF-8 bytes of a string. -/
def strBytes (s : String) : List Nat :=
  s.data.flatMap (fun c => utf8Bytes c.toNat)

/-- Go's `%s` formatting of a byte slice: bytes read back as characters
(the model treats each byte as one code point; error messages only). -/
def strOfBytes (bs : List Nat) : String :=
  String.mk (bs.map Char.ofNat)

/-- `k` bytes of `n`, big-endian. -/
def natBytesBE : Nat → Nat → List Nat
  | 0, _ => []
  | k + 1, n => natBytesBE k (n >>> 8) ++ [n % 256]

/-- Split a list into chunks of `n` (fuel-driven; fuel `l.length` suffices
for `n ≥ 1`). -/
def chunksGo : Nat → Nat → List Nat → List (List Nat)
  | 0, _, _ => []
  | _, _, [] => []
  | fuel + 1, n, l => l.take n :: chunksGo fuel n (l.drop n)

/-- Split a byte list into blocks of `n` bytes. -/
def chunks (n : Nat) (l : List Nat) : List (List Nat) :=
  chunksGo l.length n l

/-! ## SHA-256 (crypto/sha256) -/

/-- The 64 SHA-256 round constants. -/
def sha256K : List Nat :=
  [1116352408, 1899447441, 3049323471, 3921009573, 961987163,
   1508970993, 2453635748, 2870763221, 3624381080, 310598401,
   607225278, 1426881987, 1925078388, 2162078206, 2614888103,
   3248222580, 3835390401, 4022224774, 264347078, 604807628,
   770255983, 1249150122, 1555081692, 1996064986, 2554220882,
   2821834349, 2952996808, 3210313671, 3336571891, 3584528711,
   113926993, 338241895, 666307205, 773529912, 1294757372,
   1396182291, 1695183700, 1986661051, 2177026350, 2456956037,
   2730485921, 2820302411, 3259730800, 3345764771, 3516065817,
   3600352804, 4094571909, 275423344, 430227734, 506948616,
   659060556, 883997877, 958139571, 1322822218, 1537002063,
   1747873779, 1955562222, 2024104815, 2227730452, 2361852424,
   2428436474, 2756734187, 3204031479, 3329325298]

/-- The eight SHA-256 initial hash values. -/
def sha256H0 : List Nat :=
  [1779033703, 3144134277, 1013904242, 2773480762, 1359893119,
   2600822924, 528734635, 1541459225]

/-- Right rotation of a 32-bit word. -/
def rotr32 (n x : Nat) : Nat := ((x >>> n) ||| (x <<< (32 - n))) % M32

/-- SHA-2 `Ch` on 32-bit words. -/
def ch32 (x y z : Nat) : Nat := (x &&& y) ^^^ ((x ^^^ 0xffffffff) &&& z)

/-- SHA-2 `Maj` on 32-bit words. -/
def maj32 (x y z : Nat) : Nat := (x &&& y) ^^^ (x &&& z) ^^^ (y &&& z)

/-- SHA-256 `Σ₀`. -/
def bsig0 (x : Nat) : Nat := rotr32 2 x ^^^ rotr32 13 x ^^^ rotr32 22 x

/-- SHA-256 `Σ₁`. -/
def bsig1 (x : Nat) : Nat := rotr32 6 x ^^^ rotr32 11 x ^^^ rotr32 25 x

/-- SHA-256 `σ₀`. -/
def ssig0 (x : Nat) : Nat := rotr32 7 x ^^^ rotr32 18 x ^^^ (x >>> 3)

/-- SHA-256 `σ₁`. -/
def ssig1 (x : Nat) : Nat := rotr32 17 x ^^^ rotr32 19 x ^^^ (x >>> 10)

/-- Big-endian 32-bit words from bytes. -/
def bytesToWords32 : List Nat → List Nat
  | a :: b :: c :: d :: rest =>
    (a <<< 24 ||| b <<< 16 ||| c <<< 8 ||| d) :: bytesToWords32 rest
  | _ => []

/-- Big-endian 4-byte serialization of a 32-bit word. -/
def word32Bytes (w : Nat) : List Nat :=
  [(w >>> 24) % 256, (w >>> 16) % 256, (w >>> 8) % 256, w % 256]

/-- Extend the SHA-256 message schedule by `fuel` words. -/
def sha256Extend : Nat → List Nat → List Nat
  | 0, ws => ws
  | fuel + 1, ws =>
    let t := ws.length
    let w := (ssig1 (ws.getD (t - 2) 0) + ws.getD (t - 7) 0 +
              ssig0 (ws.getD (t - 15) 0) + ws.getD (t - 16) 0) % M32
    sha256Extend fuel (ws ++ [w])

/-- One SHA-256 round: state `[a,b,c,d,e,f,g,h]`, input `(Kₜ, Wₜ)`. -/
def sha256Round (st : List Nat) (kw : Nat × Nat) : List Nat :=
  match st with
  | [a, b, c, d, e, f, g, h] =>
    let t1 := (h + bsig1 e + ch32 e f g + kw.1 + kw.2) % M32
    let t2 := (bsig0 a + maj32 a b c) % M32
    [(t1 + t2) % M32, a, b, c, (d + t1) % M32, e, f, g]
  | _ => st

/-- SHA-256 compression of one 64-byte block into the running state. -/
def sha256Block (st : List Nat) (block : List Nat) : List Nat :=
  let ws := sha256Extend 48 (bytesToWords32 block)
  let st2 := (sha256K.zip ws).foldl sha256Round st
  (st.zip st2).map (fun p => (p.1 + p.2) % M32)

/-- SHA-256 padding: `0x80`, zeros, 64-bit big-endian bit length. -/
def sha256Pad (msg : List Nat) : List Nat :=
  let L := msg.length
  msg ++ 0x80 :: List.replicate ((119 - L % 64) % 64) 0 ++ natBytesBE 8 ((8 * L) % M64)

/-- SHA-256 digest (32 bytes) of a byte sequence. -/
def sha256 (msg : List Nat) : List Nat :=
  (((chunks 64 (sha256Pad msg)).foldl sha256Block sha256H0).map word32Bytes).flatten

/-! ## SHA-512 (crypto/sha512) -/

/-- The 80 SHA-512 round constants. -/
def sha512K : List Nat :=
  [4794697086780616226, 8158064640168781261, 13096744586834688815,
   16840607885511220156, 4131703408338449720, 6480981068601479193,
   10538285296894168987, 12329834152419229976, 15566598209576043074,
   1334009975649890238, 2608012711638119052, 6128411473006802146,
   8268148722764581231, 9286055187155687089, 11230858885718282805,
   13951009754708518548, 16472876342353939154, 17275323862435702243,
   1135362057144423861, 2597628984639134821, 3308224258029322869,
   5365058923640841347, 6679025012923562964, 8573033837759648693,
   10970295158949994411, 12119686244451234320, 12683024718118986047,
   13788192230050041572, 14330467153632333762, 15395433587784984357,
   489312712824947311, 1452737877330783856, 2861767655752347644,
   3322285676063803686, 5560940570517711597, 5996557281743188959,
   7280758554555802590, 8532644243296465576, 9350256976987008742,
   10552545826968843579, 11727347734174303076, 12113106623233404929,
   14000437183269869457, 14369950271660146224, 15101387698204529176,
   15463397548674623760, 17586052441742319658, 1182934255886127544,
   1847814050463011016, 2177327727835720531, 2830643537854262169,
   3796741975233480872, 4115178125766777443, 5681478168544905931,
   6601373596472566643, 7507060721942968483, 8399075790359081724,
   8693463985226723168, 9568029438360202098, 10144078919501101548,
   10430055236837252648, 11840083180663258601, 13761210420658862357,
   14299343276471374635, 14566680578165727644, 15097957966210449927,
   16922976911328602910, 17689382322260857208, 500013540394364858,
   748580250866718886, 1242879168328830382, 1977374033974150939,
   2944078676154940804, 3659926193048069267, 4368137639120453308,
   4836135668995329356, 5532061633213252278, 6448918945643986474,
   6902733635092675308, 7801388544844847127]

/-- The eight SHA-512 initial hash values. -/
def sha512H0 : List Nat :=
  [7640891576956012808, 13503953896175478587, 4354685564936845355,
   11912009170470909681, 5840696475078001361, 11170449401992604703,
   2270897969802886507, 6620516959819538809]

/-- Right rotation of a 64-bit word. -/
def rotr64 (n x : Nat) : Nat := ((x >>> n) ||| (x <<< (64 - n))) % M64

/-- SHA-2 `Ch` on 64-bit words. -/
def ch64 (x y z : Nat) : Nat := (x &&& y) ^^^ ((x ^^^ 0xffffffffffffffff) &&& z)

/-- SHA-2 `Maj` on 64-bit words. -/
def maj64 (x y z : Nat) : Nat := (x &&& y) ^^^ (x &&& z) ^^^ (y &&& z)

/-- SHA-512 `Σ₀`. -/
def bsig0w (x : Nat) : Nat := rotr64 28 x ^^^ rotr64 34 x ^^^ rotr64 39 x

/-- SHA-512 `Σ₁`. -/
def bsig1w (x : Nat) : Nat := rotr64 14 x ^^^ rotr64 18 x ^^^ rotr64 41 x

/-- SHA-512 `σ₀`. -/
def ssig0w (x : Nat) : Nat := rotr64 1 x ^^^ rotr64 8 x ^^^ (x >>> 7)

/-- SHA-512 `σ₁`. -/
def ssig1w (x : Nat) : Nat := rotr64 19 x ^^^ rotr64 61 x ^^^ (x >>> 6)

/-- Big-endian 64-bit words from bytes. -/
def bytesToWords64 : List Nat → List Nat
  | a :: b :: c :: d :: e :: f :: g :: h :: rest =>
    (a <<< 56 ||| b <<< 48 ||| c <<< 40 ||| d <<< 32 |||
     e <<< 24 ||| f <<< 16 ||| g <<< 8 ||| h) :: bytesToWords64 rest
  | _ => []

/-- Big-endian 8-byte serialization of a 64-bit word. -/
def word64Bytes (w : Nat) : List Nat :=
  [(w >>> 56) % 256, (w >>> 48) % 256, (w >>> 40) % 256, (w >>> 32) % 256,
   (w >>> 24) % 256, (w >>> 16) % 256, (w >>> 8) % 256, w % 256]

/-- Extend the SHA-512 message schedule by `fuel` words. -/
def sha512Extend : Nat → List Nat → List Nat
  | 0, ws => ws
  | fuel + 1, ws =>
    let t := ws.length
    let w := (ssig1w (ws.getD (t - 2) 0) + ws.getD (t - 7) 0 +
              ssig0w (ws.getD (t - 15) 0) + ws.getD (t - 16) 0) % M64
    sha512Extend fuel (ws ++ [w])

/-- One SHA-512 round. -/
def sha512Round (st : List Nat) (kw : Nat × Nat) : List Nat :=
  match st with
  | [a, b, c, d, e, f, g, h] =>
    let t1 := (h + bsig1w e + ch64 e f g + kw.1 + kw.2) % M64
    let t2 := (bsig0w a + maj64 a b c) % M64
    [(t1 + t2) % M64, a, b, c, (d + t1) % M64, e, f, g]
  | _ => st

/-- SHA-512 compression of one 128-byte block. -/
def sha512Block (st : List Nat) (block : List Nat) : List Nat :=
  let ws := sha512Extend 64 (bytesToWords64 block)
  let st2 := (sha512K.zip ws).foldl sha512Round st
  (st.zip st2).map (fun p => (p.1 + p.2) % M64)

/-- SHA-512 padding: `0x80`, zeros, 128-bit big-endian bit length. -/
def sha512Pad (msg : List Nat) : List Nat :=
  let L := msg.length
  msg ++ 0x80 :: List.replicate ((239 - L % 128) % 128) 0 ++ natBytesBE 16 (8 * L)

/-- SHA-512 digest (64 bytes) of a byte sequence. -/
def sha512 (msg : List Nat) : List Nat :=
  (((chunks 128 (sha512Pad msg)).foldl sha512Block sha512H0).map word64Bytes).flatten

/-! ## HMAC (crypto/hmac), hex and base64 encodings -/

/-- HMAC (FIPS 198-1) over an arbitrary hash with the given block size. -/
def hmac (hashFn : List Nat → List Nat) (blockSize : Nat) (key msg : List Nat) :
    List Nat :=
  let k0 := if blockSize < key.length then hashFn key else key
  let k0 := k0 ++ List.replicate (blockSize - k0.length) 0
  let ipad := k0.map (fun b => b ^^^ 0x36)
  let opad := k0.map (fun b => b ^^^ 0x5c)
  hashFn (opad ++ hashFn (ipad ++ msg))

/-- HMAC-SHA512, as built by `hmac.New(sha512.New, key)`. -/
def hmacSHA512 (key msg : List Nat) : List Nat := hmac sha512 128 key msg

/-- Lowercase hex digit. -/
def hexDigit (n : Nat) : Char :=
  "0123456789abcdef".data.getD n '0'

/-- Lowercase hex encoding of bytes (encoding/hex `EncodeToString`). -/
def hexEncode (bs : List Nat) : String :=
  String.mk (bs.flatMap (fun b => [hexDigit ((b >>> 4) % 16), hexDigit (b % 16)]))

/-- Standard base64 alphabet character. -/
def b64Char (n : Nat) : Char :=
  "ABCDEFGHIJKLMNOPQRSTUVWXYZabcdefghijklmnopqrstuvwxyz0123456789+/".data.getD n 'A'

/-- Standard base64 with padding (encoding/base64 `StdEncoding.EncodeToString`). -/
def base64Chars : List Nat → List Char
  | [] => []
  | [a] =>
    [b64Char (a >>> 2), b64Char ((a &&& 0x3) <<< 4), '=', '=']
  | [a, b] =>
    [b64Char (a >>> 2), b64Char (((a &&& 0x3) <<< 4) ||| (b >>> 4)),
     b64Char ((b &&& 0xf) <<< 2), '=']
  | a :: b :: c :: rest =>
    b64Char (a >>> 2) :: b64Char (((a &&& 0x3) <<< 4) ||| (b >>> 4)) ::
    b64Char (((b &&& 0xf) <<< 2) ||| (c >>> 6)) :: b64Char (c &&& 0x3f) ::
    base64Chars rest

/-- Base64 encoding of bytes to a string. -/
def base64Encode (bs : List Nat) : String := String.mk (base64Chars bs)

/-! ## Hashing helpers of the package -/

/-- `hashHex`: lowercase hex SHA-256 digest of a byte slice. -/
def hashHex (token : List Nat) : String := hexEncode (sha256 token)

/-- `hashBase64`: base64 of the SHA-256 digest of a byte slice. -/
def hashBase64 (token : List Nat) : String := base64Encode (sha256 token)

/-- `hash`: base64 of `HMAC-SHA512(key = token, msg = nonce ‖ 0 ‖ bytes ‖ 0)`,
the incremental writes `nonce`, `{0}`, `bytes`, `{0}` concatenated. -/
def hash (token nonce : String) (bytes : List Nat) : String :=
  base64Encode (hmacSHA512 (strBytes token) (strBytes nonce ++ 0 :: bytes ++ [0]))

/-! ## The effect model

The Go code talks to the network (`http.Get`, `client.Do`), to the random
source (`randomtoken.Generate`), to the URL parser (`url.Parse`,
`http.NewRequest`) and to the TPM collaborator (`tpm.ResolveToken`,
`tpm.Get`).  A `World` fixes the outcome of each of those calls; the
embedded functions are pure functions of the `World` and their arguments.
A Go `[]byte` result is `Option (List Nat)` (`none` = nil slice); a Go
`error` is `Option String`; a Go `(value, error)` pair where the caller
checks the error first is `Except String value`. -/

/-- The parts of a `net/url.URL` value the package uses. -/
structure Url where
  scheme : String
  host : String
  path : String
deriving DecidableEq, Repr

/-- `u.String()` after the package has set `u.Path`. -/
def urlString (u : Url) : String := u.scheme ++ "://" ++ u.host ++ u.path

/-- An outgoing request: target URL plus the headers the package sets. -/
structure HttpRequest where
  url : String
  headers : List (String × String)
deriving DecidableEq, Repr

/-- An HTTP response as the package observes it: status, the
`X-Cattle-Hash` header, and the outcome of `ioutil.ReadAll(resp.Body)`
(the bytes read and the read error, both of which Go returns). -/
structure HttpResponse where
  statusCode : Nat
  status : String
  xCattleHash : String
  body : List Nat
  bodyErr : Option String
deriving DecidableEq, Repr

/-- The observable configuration of an HTTP client the package builds:
its timeout (in seconds; `none` = no timeout), whether it skips TLS
verification, its pinned root CAs (`none` = default trust store), and
whether the code closes its idle connections when the call completes. -/
structure ClientConfig where
  timeoutSeconds : Option Nat
  insecureSkipVerify : Bool
  rootCAs : Option (List Nat)
  closesIdleOnExit : Bool
deriving DecidableEq, Repr

/-- The package-level `insecureClient`: 5-second timeout, skip-verify. -/
def insecureClient : ClientConfig :=
  { timeoutSeconds := some 5, insecureSkipVerify := true,
    rootCAs := none, closesIdleOnExit := false }

/-- `http.DefaultClient`: the zero-value client — no timeout, default
trust store, never explicitly closed by this package. -/
def defaultClient : ClientConfig :=
  { timeoutSeconds := none, insecureSkipVerify := false,
    rootCAs := none, closesIdleOnExit := false }

/-- The client `get` builds for a non-empty bundle: 5-second timeout,
the bundle's pool as sole trust root, `defer client.CloseIdleConnections()`. -/
def pinnedClient (cacert : List Nat) : ClientConfig :=
  { timeoutSeconds := some 5, insecureSkipVerify := false,
    rootCAs := some cacert, closesIdleOnExit := true }

/-- Oracle for every external call one invocation can make. -/
structure World where
  /-- `randomtoken.Generate()`. -/
  nonce : Except String String
  /-- `url.Parse(server)`. -/
  parseURL : String → Except String Url
  /-- `http.Get(requestURL)` — only the error matters; the body is
  discarded (`none` = the probe returned without error). -/
  probe : String → Option String
  /-- failure of `http.NewRequest(GET, url, nil)`. -/
  newRequestErr : String → Option String
  /-- `insecureClient.Do(req)`. -/
  insecureDo : HttpRequest → Except String HttpResponse
  /-- the resource fetch `client.Do(req)`, keyed by the client built. -/
  doReq : ClientConfig → HttpRequest → Except String HttpResponse
  /-- `tpm.ResolveToken(token)` → (isTPM, resolved token). -/
  resolveToken : String → Except String (Bool × String)
  /-- `tpm.Get(cacert, url, nil)` → (data, error), both returned. -/
  tpmGet : Option (List Nat) → String → Option (List Nat) × Option String

/-- A Go `([]byte, string, error)` triple: bundle/body, checksum, error. -/
abbrev GoResult := Option (List Nat) × String × Option String

/-! ## `CACerts` -/

/-- The well-known endpoint: `https://{host}/cacerts` for cluster tokens,
`https://{host}/v1-rancheros/cacerts` otherwise. -/
def caCertsRequestURL (clusterToken : Bool) (host : String) : String :=
  if clusterToken then "https://" ++ host ++ "/cacerts"
  else "https://" ++ host ++ "/v1-rancheros/cacerts"

/-- The bootstrap request: `X-Cattle-Nonce` and
`Authorization: Bearer base64(sha256(token))`. -/
def bootstrapRequest (requestURL nonce token : String) : HttpRequest :=
  { url := requestURL,
    headers := [("X-Cattle-Nonce", nonce),
                ("Authorization", "Bearer " ++ hashBase64 (strBytes token))] }

/-- The bootstrap exchange of `CACerts` (lines after the probe): build the
request, send over `insecureClient`, read the body, then check status,
HMAC header and body length. -/
def bootstrapPhase (w : World) (token nonce requestURL : String) : GoResult :=
  match w.newRequestErr requestURL with
  | some e => (none, "", some e)
  | none =>
    match w.insecureDo (bootstrapRequest requestURL nonce token) with
    | .error e =>
      (none, "", some ("insecure cacerts download from " ++ requestURL ++ ": " ++ e))
    | .ok resp =>
      match resp.bodyErr with
      | some e => (none, "", some e)
      | none =>
        if resp.statusCode ≠ 200 then
          (none, "", some ("response " ++ toString resp.statusCode ++ ": " ++
            resp.status ++ " getting cacerts: " ++ strOfBytes resp.body))
        else if resp.xCattleHash ≠ hash token nonce resp.body then
          (none, "", some ("response hash (" ++ resp.xCattleHash ++
            ") does not match (" ++ hash token nonce resp.body ++ ")"))
        else if resp.body.length = 0 then
          (none, "", none)
        else
          (some resp.body, hashHex resp.body, none)

/-- `CACerts(server, token, clusterToken)`: generate a nonce, parse the
server URL, probe the well-known endpoint with the default client (success
⇒ empty result), else run the bootstrap exchange. -/
def CACerts (w : World) (server token : String) (clusterToken : Bool) : GoResult :=
  match w.nonce with
  | .error e => (none, "", some e)
  | .ok nonce =>
    match w.parseURL server with
    | .error e => (none, "", some e)
    | .ok url =>
      let requestURL := caCertsRequestURL clusterToken url.host
      match w.probe requestURL with
      | none => (none, "", none)
      | some _ => bootstrapPhase w token nonce requestURL

/-! ## `get` and its wrappers -/

/-- `len` of a possibly-nil byte slice. -/
def optLen : Option (List Nat) → Nat
  | none => 0
  | some l => l.length

/-- The client `get` uses for the resource fetch: `http.DefaultClient`
when `len(cacert) == 0`, otherwise a fresh client pinned to the bundle. -/
def fetchClientConfig (cacert : Option (List Nat)) : ClientConfig :=
  if optLen cacert = 0 then defaultClient else pinnedClient (cacert.getD [])

/-- The resource request: bare for a cluster token, otherwise carrying
`Authorization: Bearer base64(token)` (the raw resolved token). -/
def resourceRequest (u : Url) (token : String) (clusterToken : Bool) : HttpRequest :=
  { url := urlString u,
    headers :=
      if clusterToken then []
      else [("Authorization", "Bearer " ++ base64Encode (strBytes token))] }

/-- `get(server, token, path, clusterToken)`: parse the URL, resolve the
token when not cluster-scoped, obtain the CA bundle via `CACerts`,
delegate to `tpm.Get` for hardware tokens, else fetch through the pinned
or default client and return `(data, caChecksum, err)`. -/
def get (w : World) (server token path : String) (clusterToken : Bool) : GoResult :=
  match w.parseURL server with
  | .error e => (none, "", some e)
  | .ok u0 =>
    let u : Url := { u0 with path := path }
    match (if clusterToken then Except.ok (false, token) else w.resolveToken token) with
    | .error e => (none, "", some e)
    | .ok (isTPM, token) =>
      match CACerts w server token clusterToken with
      | (_, _, some e) => (none, "", some e)
      | (cacert, caChecksum, none) =>
        if isTPM then
          ((w.tpmGet cacert (urlString u)).1, caChecksum,
           (w.tpmGet cacert (urlString u)).2)
        else
          match w.newRequestErr (urlString u) with
          | some e => (none, "", some e)
          | none =>
            match w.doReq (fetchClientConfig cacert)
                (resourceRequest u token clusterToken) with
            | .error e => (none, "", some e)
            | .ok resp =>
              if resp.statusCode ≠ 200 then
                (none, "", some (strOfBytes resp.body ++ ": " ++ resp.status))
              else
                (some resp.body, caChecksum, resp.bodyErr)

/-- `Get`: cluster-token variant. -/
def Get (w : World) (server token path : String) : GoResult :=
  get w server token path true

/-- `MachineGet`: machine/node-token variant. -/
def MachineGet (w : World) (server token path : String) : GoResult :=
  get w server token path false

/-! ## Artifact builder `ToFile` -/

/-- An `applyinator.File` descriptor as the package fills it. -/
structure AFile where
  content : String
  path : String
  permissions : String
deriving DecidableEq, Repr

/-- `ToFile(server, token)`: cluster-scoped `CACerts`, then a file
descriptor with the base64 of the bundle at a fixed path. -/
def ToFile (w : World) (server token : String) : Except String AFile :=
  match CACerts w server token true with
  | (_, _, some e) => .error e
  | (cacert, _, none) =>
    .ok { content := base64Encode (cacert.getD []),
          path := "/etc/pki/trust/anchors/additional-ca.pem",
          permissions := "0644" }

/-! ## Sample worlds for concrete instantiations -/

/-- A parsed sample server URL. -/
def sampleUrl : Url := ⟨"https", "example.com", ""⟩

/-- A bootstrap response for token `"t"`, nonce `"n"`, body `[1, 2]`, with
a correctly computed `X-Cattle-Hash` header. -/
def sampleResp : HttpResponse := ⟨200, "200 OK", hash "t" "n" [1, 2], [1, 2], none⟩

/-- World in which the probe fails and the bootstrap exchange returns
`sampleResp`. -/
def WBoot : World :=
  { nonce := .ok "n",
    parseURL := fun _ => .ok sampleUrl,
    probe := fun _ => some "x509: unknown authority",
    newRequestErr := fun _ => none,
    insecureDo := fun _ => .ok sampleResp,
    doReq := fun _ _ => .error "unused",
    resolveToken := fun t => .ok (false, t),
    tpmGet := fun _ _ => (none, none) }

/-- World in which the probe succeeds. -/
def WProbe : World :=
  { nonce := .ok "n",
    parseURL := fun _ => .ok sampleUrl,
    probe := fun _ => none,
    newRequestErr := fun _ => none,
    insecureDo := fun _ => .error "unused",
    doReq := fun _ _ => .error "unused",
    resolveToken := fun t => .ok (false, t),
    tpmGet := fun _ _ => (none, none) }

/-- World in which the bootstrap endpoint answers 500. -/
def W500 : World :=
  { nonce := .ok "n",
    parseURL := fun _ => .ok sampleUrl,
    probe := fun _ => some "x509: unknown authority",
    newRequestErr := fun _ => none,
    insecureDo := fun _ => .ok ⟨500, "500 Internal Server Error", "", [65], none⟩,
    doReq := fun _ _ => .error "unused",
    resolveToken := fun t => .ok (false, t),
    tpmGet := fun _ _ => (none, none) }

/-- World in which the probe succeeds and only the default client answers
the resource fetch (any other client configuration is refused). -/
def W7 : World :=
  { nonce := .ok "n",
    parseURL := fun _ => .ok sampleUrl,
    probe := fun _ => none,
    newRequestErr := fun _ => none,
    insecureDo := fun _ => .error "unused",
    doReq := fun cfg _ =>
      if cfg = defaultClient then .ok ⟨200, "200 OK", "", [9], none⟩
      else .error "wrong client",
    resolveToken := fun t => .ok (false, t),
    tpmGet := fun _ _ => (none, none) }

/-- World in which the bootstrap yields a verified one-byte bundle and the
resource fetch answers 200 but the body read fails midway. -/
def W9 : World :=
  { nonce := .ok "n",
    parseURL := fun _ => .ok sampleUrl,
    probe := fun _ => some "x509: unknown authority",
    newRequestErr := fun _ => none,
    insecureDo := fun _ => .ok ⟨200, "200 OK", hash "t" "n" [1], [1], none⟩,
    doReq := fun _ _ => .ok ⟨200, "200 OK", "", [7], some "read failed"⟩,
    resolveToken := fun t => .ok (false, t),
    tpmGet := fun _ _ => (none, none) }

/-- World in which the token resolves as hardware-backed. -/
def WTpm : World :=
  { nonce := .ok "n",
    parseURL := fun _ => .ok sampleUrl,
    probe := fun _ => none,
    newRequestErr := fun _ => none,
    insecureDo := fun _ => .error "unused",
    doReq := fun _ _ => .error "unused",
    resolveToken := fun _ => .ok (true, "resolved"),
    tpmGet := fun _ _ => (some [3], none) }

/-- World in which the token resolves as hardware-backed, the bootstrap
yields a verified one-byte bundle, and the hardware retrieval returns
data together with an error. -/
def WTpmErr : World :=
  { nonce := .ok "n",
    parseURL := fun _ => .ok sampleUrl,
    probe := fun _ => some "x509: unknown authority",
    newRequestErr := fun _ => none,
    insecureDo := fun _ => .ok ⟨200, "200 OK", hash "rt" "n" [1], [1], none⟩,
    doReq := fun _ _ => .error "unused",
    resolveToken := fun _ => .ok (true, "rt"),
    tpmGet := fun _ _ => (some [8], some "tpm read failed") }

/-- World in which the probe succeeds and the resource fetch answers 200
with body `[5]`. -/
def WFetch : World :=
  { nonce := .ok "n",
    parseURL := fun _ => .ok sampleUrl,
    probe := fun _ => none,
    newRequestErr := fun _ => none,
    insecureDo := fun _ => .error "unused",
    doReq := fun _ _ => .ok ⟨200, "200 OK", "", [5], none⟩,
    resolveToken := fun t => .ok (false, t),
    tpmGet := fun _ _ => (none, none) }

/-- World in which nonce generation fails. -/
def WErr : World :=
  { nonce := .error "rng failure",
    parseURL := fun _ => .error "unused",
    probe := fun _ => some "unused",
    newRequestErr := fun _ => some "unused",
    insecureDo := fun _ => .error "unused",
    doReq := fun _ _ => .error "unused",
    resolveToken := fun _ => .error "unused",
    tpmGet := fun _ _ => (none, none) }

/-! ## Claim theorems -/

/-- C1: on the bootstrap path with a 200 response whose body was read, `CACerts` verification succeeds exactly when the response's `X-Cattle-Hash` header equals `base64(HMAC-SHA512(key = token, msg = nonce ‖ 0x00 ‖ body ‖ 0x00))`; on any mismatch it returns an error with a nil bundle and empty checksum, never the body. -/
theorem cacerts_verification_iff
    (w : World) (server token : String) (ct : Bool) (nonce perr : String)
    (u : Url) (resp : HttpResponse)
    (hn : w.nonce = .ok nonce)
    (hu : w.parseURL server = .ok u)
    (hp : w.probe (caCertsRequestURL ct u.host) = some perr)
    (hr : w.newRequestErr (caCertsRequestURL ct u.host) = none)
    (hdo : w.insecureDo (bootstrapRequest (caCertsRequestURL ct u.host) nonce token)
        = .ok resp)
    (hb : resp.bodyErr = none)
    (hst : resp.statusCode = 200) :
    hash token nonce resp.body =
      base64Encode (hmacSHA512 (strBytes token) (strBytes nonce ++ 0 :: resp.body ++ [0]))
    ∧ ((CACerts w server token ct).2.2 = none ↔
        resp.xCattleHash = hash token nonce resp.body)
    ∧ (resp.xCattleHash ≠ hash token nonce resp.body →
        CACerts w server token ct =
          (none, "", some ("response hash (" ++ resp.xCattleHash ++
            ") does not match (" ++ hash token nonce resp.body ++ ")"))) := by
  have hC : CACerts w server token ct =
      bootstrapPhase w token nonce (caCertsRequestURL ct u.host) := by
    unfold CACerts
    rw [hn, hu]
    dsimp only
    rw [hp]
  unfold bootstrapPhase at hC
  rw [hr, hdo] at hC
  dsimp only at hC
  rw [hb, hst] at hC
  simp only [ne_eq, not_true_eq_false, if_false, ite_false, reduceIte] at hC
  refine ⟨rfl, ?_, ?_⟩
  · rw [hC]
    by_cases hx : resp.xCattleHash = hash token nonce resp.body
    · rw [if_neg (by simp [hx])]
      simp only [hx, iff_true]
      split
      · rfl
      · rfl
    · rw [if_pos (by simp [hx])]
      simp [hx]
  · intro hx
    rw [hC, if_pos (by simp [hx])]

/-- Witness for C1: token `"t"`, nonce `"n"`, body `[1, 2]` with a correctly computed header. -/
theorem cacerts_verification_iff_witness :
    hash "t" "n" [1, 2] =
      base64Encode (hmacSHA512 (strBytes "t") (strBytes "n" ++ 0 :: [1, 2] ++ [0]))
    ∧ ((CACerts WBoot "https://example.com" "t" true).2.2 = none ↔
        sampleResp.xCattleHash = hash "t" "n" [1, 2])
    ∧ (sampleResp.xCattleHash ≠ hash "t" "n" [1, 2] →
        CACerts WBoot "https://example.com" "t" true =
          (none, "", some ("response hash (" ++ sampleResp.xCattleHash ++
            ") does not match (" ++ hash "t" "n" [1, 2] ++ ")"))) :=
  cacerts_verification_iff WBoot "https://example.com" "t" true "n"
    "x509: unknown authority" sampleUrl sampleResp rfl rfl rfl rfl rfl rfl rfl

/-- C2: whenever the plain GET probe to the well-known endpoint returns without error, `CACerts` returns `(nil, "", nil)`, regardless of how the bootstrap endpoint (`insecureDo`) would have behaved. -/
theorem cacerts_probe_success_empty
    (w : World) (server token : String) (ct : Bool) (nonce : String) (u : Url)
    (hn : w.nonce = .ok nonce) (hu : w.parseURL server = .ok u)
    (hp : w.probe (caCertsRequestURL ct u.host) = none) :
    CACerts w server token ct = (none, "", none) := by
  unfold CACerts
  rw [hn, hu]
  dsimp only
  rw [hp]

/-- Witness for C2 in a world where the probe succeeds. -/
theorem cacerts_probe_success_empty_witness :
    CACerts WProbe "https://example.com" "t" true = (none, "", none) :=
  cacerts_probe_success_empty WProbe "https://example.com" "t" true "n" sampleUrl
    rfl rfl rfl

/-- C3: when the bootstrap response passes HMAC verification, `CACerts` returns `(nil, "", nil)` for an empty body and otherwise the body together with its lowercase hex SHA-256 digest and a nil error; `hashHex` is exactly `hexEncode ∘ sha256`. -/
theorem cacerts_verified_body_result
    (w : World) (server token : String) (ct : Bool) (nonce perr : String)
    (u : Url) (resp : HttpResponse)
    (hn : w.nonce = .ok nonce)
    (hu : w.parseURL server = .ok u)
    (hp : w.probe (caCertsRequestURL ct u.host) = some perr)
    (hr : w.newRequestErr (caCertsRequestURL ct u.host) = none)
    (hdo : w.insecureDo (bootstrapRequest (caCertsRequestURL ct u.host) nonce token)
        = .ok resp)
    (hb : resp.bodyErr = none)
    (hst : resp.statusCode = 200)
    (hx : resp.xCattleHash = hash token nonce resp.body) :
    (resp.body = [] → CACerts w server token ct = (none, "", none))
    ∧ (resp.body ≠ [] → CACerts w server token ct =
        (some resp.body, hexEncode (sha256 resp.body), none))
    ∧ hashHex resp.body = hexEncode (sha256 resp.body) := by
  have hC : CACerts w server token ct =
      bootstrapPhase w token nonce (caCertsRequestURL ct u.host) := by
    unfold CACerts
    rw [hn, hu]
    dsimp only
    rw [hp]
  unfold bootstrapPhase at hC
  rw [hr, hdo] at hC
  dsimp only at hC
  rw [hb, hst] at hC
  simp only [ne_eq, not_true_eq_false, if_false, ite_false, reduceIte] at hC
  rw [if_neg (by simp [hx])] at hC
  refine ⟨?_, ?_, rfl⟩
  · intro he
    rw [hC, if_pos (by simp [he])]
  · intro he
    rw [hC, if_neg (by simp [he])]
    rfl

/-- Witness for C3 at the verified body `[1, 2]`. -/
theorem cacerts_verified_body_result_witness :
    ([1, 2] = ([] : List Nat) →
      CACerts WBoot "https://example.com" "t" true = (none, "", none))
    ∧ ([1, 2] ≠ ([] : List Nat) →
        CACerts WBoot "https://example.com" "t" true =
          (some [1, 2], hexEncode (sha256 [1, 2]), none))
    ∧ hashHex [1, 2] = hexEncode (sha256 [1, 2]) :=
  cacerts_verified_body_result WBoot "https://example.com" "t" true "n"
    "x509: unknown authority" sampleUrl sampleResp rfl rfl rfl rfl rfl rfl rfl rfl

/-- C4: a bootstrap response with a status other than 200 makes `CACerts` return a nil bundle, an empty checksum, and an error embedding the status code, status text and response body. -/
theorem cacerts_non200_error
    (w : World) (server token : String) (ct : Bool) (nonce perr : String)
    (u : Url) (resp : HttpResponse)
    (hn : w.nonce = .ok nonce)
    (hu : w.parseURL server = .ok u)
    (hp : w.probe (caCertsRequestURL ct u.host) = some perr)
    (hr : w.newRequestErr (caCertsRequestURL ct u.host) = none)
    (hdo : w.insecureDo (bootstrapRequest (caCertsRequestURL ct u.host) nonce token)
        = .ok resp)
    (hb : resp.bodyErr = none)
    (hst : resp.statusCode ≠ 200) :
    CACerts w server token ct =
      (none, "", some ("response " ++ toString resp.statusCode ++ ": " ++
        resp.status ++ " getting cacerts: " ++ strOfBytes resp.body)) := by
  unfold CACerts
  rw [hn, hu]
  dsimp only
  rw [hp]
  unfold bootstrapPhase
  rw [hr, hdo]
  dsimp only
  rw [hb]
  simp [hst]

/-- Witness for C4 at a 500 response with body `[65]`. -/
theorem cacerts_non200_error_witness :
    CACerts W500 "https://example.com" "t" true =
      (none, "", some ("response " ++ toString 500 ++ ": " ++
        "500 Internal Server Error" ++ " getting cacerts: " ++ strOfBytes [65])) :=
  cacerts_non200_error W500 "https://example.com" "t" true "n"
    "x509: unknown authority" sampleUrl ⟨500, "500 Internal Server Error", "", [65], none⟩
    rfl rfl rfl rfl rfl rfl (by decide)

/-- C5: both the probe and the bootstrap request target `https://{host}/cacerts` for cluster tokens and `https://{host}/v1-rancheros/cacerts` otherwise, built from the host alone; the bootstrap request carries `X-Cattle-Nonce` and `Authorization: Bearer base64(sha256(token))` rather than the raw token. -/
theorem cacerts_endpoints_and_headers
    (w : World) (server token : String) (ct : Bool) (nonce : String) (u : Url)
    (hn : w.nonce = .ok nonce) (hu : w.parseURL server = .ok u) :
    caCertsRequestURL true u.host = "https://" ++ u.host ++ "/cacerts"
    ∧ caCertsRequestURL false u.host = "https://" ++ u.host ++ "/v1-rancheros/cacerts"
    ∧ bootstrapRequest (caCertsRequestURL ct u.host) nonce token =
        { url := caCertsRequestURL ct u.host,
          headers := [("X-Cattle-Nonce", nonce),
                      ("Authorization", "Bearer " ++ base64Encode (sha256 (strBytes token)))] }
    ∧ CACerts w server token ct =
        (match w.probe (caCertsRequestURL ct u.host) with
         | none => (none, "", none)
         | some _ => bootstrapPhase w token nonce (caCertsRequestURL ct u.host)) := by
  refine ⟨rfl, rfl, rfl, ?_⟩
  unfold CACerts
  rw [hn, hu]

/-- Witness for C5 at the sample URL and nonce `"n"`. -/
theorem cacerts_endpoints_and_headers_witness :
    caCertsRequestURL true sampleUrl.host = "https://" ++ sampleUrl.host ++ "/cacerts"
    ∧ caCertsRequestURL false sampleUrl.host =
        "https://" ++ sampleUrl.host ++ "/v1-rancheros/cacerts"
    ∧ bootstrapRequest (caCertsRequestURL true sampleUrl.host) "n" "t" =
        { url := caCertsRequestURL true sampleUrl.host,
          headers := [("X-Cattle-Nonce", "n"),
                      ("Authorization", "Bearer " ++ base64Encode (sha256 (strBytes "t")))] }
    ∧ CACerts WProbe "https://example.com" "t" true =
        (match WProbe.probe (caCertsRequestURL true sampleUrl.host) with
         | none => (none, "", none)
         | some _ => bootstrapPhase WProbe "t" "n" (caCertsRequestURL true sampleUrl.host)) :=
  cacerts_endpoints_and_headers WProbe "https://example.com" "t" true "n" sampleUrl rfl rfl

/-- C6: with a non-cluster token that resolves as hardware-backed, `get` delegates the fetch to `tpm.Get` with the bundle obtained from `CACerts`, and its result does not depend on the resource-fetch client (`doReq`) at all. -/
theorem get_hardware_delegation
    (w : World) (server token token2 path : String) (u : Url)
    (hu : w.parseURL server = .ok u)
    (hres : w.resolveToken token = .ok (true, token2))
    (cacert : Option (List Nat)) (chk : String)
    (hca : CACerts w server token2 false = (cacert, chk, none)) :
    get w server token path false =
      ((w.tpmGet cacert (urlString { u with path := path })).1, chk,
       (w.tpmGet cacert (urlString { u with path := path })).2)
    ∧ ∀ d, get { w with doReq := d } server token path false =
        get w server token path false := by
  have key : ∀ w' : World, w'.parseURL = w.parseURL → w'.resolveToken = w.resolveToken →
      w'.nonce = w.nonce → w'.probe = w.probe → w'.newRequestErr = w.newRequestErr →
      w'.insecureDo = w.insecureDo → w'.tpmGet = w.tpmGet →
      get w' server token path false =
        ((w.tpmGet cacert (urlString { u with path := path })).1, chk,
         (w.tpmGet cacert (urlString { u with path := path })).2) := by
    intro w' h1 h2 h3 h4 h5 h6 h7
    have hca' : CACerts w' server token2 false = (cacert, chk, none) := by
      have : CACerts w' server token2 false = CACerts w server token2 false := by
        unfold CACerts bootstrapPhase
        rw [h1, h3, h4, h5, h6]
      rw [this, hca]
    unfold get
    simp [h1, hu, h2, hres, hca', h7]
  refine ⟨key w rfl rfl rfl rfl rfl rfl rfl, fun d => ?_⟩
  rw [key { w with doReq := d } rfl rfl rfl rfl rfl rfl rfl,
      key w rfl rfl rfl rfl rfl rfl rfl]

/-- Witness for C6 in a world whose resolver reports a hardware-backed token. -/
theorem get_hardware_delegation_witness :
    get WTpm "https://example.com" "t" "/r" false =
      ((WTpm.tpmGet none (urlString { sampleUrl with path := "/r" })).1, "",
       (WTpm.tpmGet none (urlString { sampleUrl with path := "/r" })).2)
    ∧ ∀ d, get { WTpm with doReq := d } "https://example.com" "t" "/r" false =
        get WTpm "https://example.com" "t" "/r" false :=
  get_hardware_delegation WTpm "https://example.com" "t" "resolved" "/r" sampleUrl
    rfl rfl none "" rfl

/-- C7 (amended): the resource-fetch client is the pinned client — 5-second timeout, the bundle as sole trust root, idle connections closed on exit — when the bundle is non-empty, and `http.DefaultClient` — no timeout, default trust store, not explicitly closed — when it is empty. -/
theorem get_client_selection (b : List Nat) (hb : b ≠ []) :
    fetchClientConfig (some b) = pinnedClient b
    ∧ pinnedClient b = { timeoutSeconds := some 5, insecureSkipVerify := false,
                         rootCAs := some b, closesIdleOnExit := true }
    ∧ fetchClientConfig none = defaultClient
    ∧ defaultClient.timeoutSeconds = none
    ∧ defaultClient.closesIdleOnExit = false := by
  refine ⟨?_, rfl, rfl, rfl, rfl⟩
  simp [fetchClientConfig, optLen, hb]

/-- Witness for C7 (amended) at the bundle `[1]`. -/
theorem get_client_selection_witness :
    fetchClientConfig (some [1]) = pinnedClient [1]
    ∧ pinnedClient [1] = { timeoutSeconds := some 5, insecureSkipVerify := false,
                           rootCAs := some [1], closesIdleOnExit := true }
    ∧ fetchClientConfig none = defaultClient
    ∧ defaultClient.timeoutSeconds = none
    ∧ defaultClient.closesIdleOnExit = false :=
  get_client_selection [1] (by decide)

/-- Counterexample to C7 as stated: with an empty bundle `get` performs the fetch through `defaultClient` (only that configuration answers in `W7`), whose timeout is not 5 seconds and which is not closed on exit. -/
theorem get_uses_default_client_counterexample :
    get W7 "https://example.com" "t" "/r" true = (some [9], "", none)
    ∧ (fetchClientConfig none).timeoutSeconds ≠ some 5
    ∧ (fetchClientConfig none).closesIdleOnExit = false := by
  refine ⟨by decide, by decide, by decide⟩

/-- C8: for a non-cluster, non-hardware token the resource request carries `Authorization: Bearer base64(token)` (the raw resolved token, not its hash); on a 200 response `get` returns the body with the checksum from `CACerts`, and on any other status an error embedding body and status. -/
theorem get_resource_fetch
    (w : World) (server token path : String) (u : Url)
    (hu : w.parseURL server = .ok u)
    (hres : w.resolveToken token = .ok (false, token))
    (cacert : Option (List Nat)) (chk : String)
    (hca : CACerts w server token false = (cacert, chk, none))
    (hr : w.newRequestErr (urlString { u with path := path }) = none)
    (resp : HttpResponse)
    (hdo : w.doReq (fetchClientConfig cacert)
        (resourceRequest { u with path := path } token false) = .ok resp) :
    resourceRequest { u with path := path } token false =
      { url := urlString { u with path := path },
        headers := [("Authorization", "Bearer " ++ base64Encode (strBytes token))] }
    ∧ (resp.statusCode = 200 →
        get w server token path false = (some resp.body, chk, resp.bodyErr))
    ∧ (resp.statusCode ≠ 200 →
        get w server token path false =
          (none, "", some (strOfBytes resp.body ++ ": " ++ resp.status))) := by
  have hG : get w server token path false =
      (if resp.statusCode ≠ 200 then
        (none, "", some (strOfBytes resp.body ++ ": " ++ resp.status))
      else (some resp.body, chk, resp.bodyErr)) := by
    unfold get
    simp [hu, hres, hca, hr, hdo]
  refine ⟨rfl, ?_, ?_⟩
  · intro h200
    rw [hG, if_neg (by simp [h200])]
  · intro h200
    rw [hG, if_pos (by simp [h200])]

/-- Witness for C8 at a 200 response with body `[5]`. -/
theorem get_resource_fetch_witness :
    resourceRequest { sampleUrl with path := "/r" } "t" false =
      { url := urlString { sampleUrl with path := "/r" },
        headers := [("Authorization", "Bearer " ++ base64Encode (strBytes "t"))] }
    ∧ ((200 : Nat) = 200 →
        get WFetch "https://example.com" "t" "/r" false = (some [5], "", none))
    ∧ ((200 : Nat) ≠ 200 →
        get WFetch "https://example.com" "t" "/r" false =
          (none, "", some (strOfBytes [5] ++ ": " ++ "200 OK"))) :=
  get_resource_fetch WFetch "https://example.com" "t" "/r" sampleUrl
    rfl rfl none "" rfl rfl ⟨200, "200 OK", "", [5], none⟩ rfl

/-- Case analysis of `CACerts`: every outcome is either an error carrying a nil bundle and empty checksum, or has a nil error. -/
theorem cacerts_error_shape_aux (w : World) (s t : String) (ct : Bool) :
    CACerts w s t ct = (none, "", (CACerts w s t ct).2.2)
    ∨ (CACerts w s t ct).2.2 = none := by
  unfold CACerts bootstrapPhase
  rcases w.nonce with e | nonce
  · exact Or.inl rfl
  rcases w.parseURL s with e | u
  · exact Or.inl rfl
  dsimp only
  rcases w.probe (caCertsRequestURL ct u.host) with _ | p
  · exact Or.inr rfl
  rcases w.newRequestErr (caCertsRequestURL ct u.host) with _ | e
  · rcases w.insecureDo (bootstrapRequest (caCertsRequestURL ct u.host) nonce t) with e | resp
    · exact Or.inl rfl
    dsimp only
    rcases resp.bodyErr with _ | e
    · dsimp only
      split_ifs <;> simp
    · exact Or.inl rfl
  · exact Or.inl rfl

/-- Case analysis of `get`: in a world where every successfully fetched response carries no read error and the hardware retrieval reports no error, every outcome of `get` is either an error carrying a nil body and empty checksum, or has a nil error. -/
theorem get_error_shape_aux (w : World) (s t p : String) (ct : Bool)
    (hread : ∀ cfg req resp, w.doReq cfg req = .ok resp → resp.bodyErr = none)
    (htpm : ∀ c u, (w.tpmGet c u).2 = none) :
    get w s t p ct = (none, "", (get w s t p ct).2.2)
    ∨ (get w s t p ct).2.2 = none := by
  unfold get
  split
  · exact Or.inl rfl
  split
  · exact Or.inl rfl
  split
  · exact Or.inl rfl
  split
  · exact Or.inr (htpm _ _)
  dsimp only
  split
  · exact Or.inl rfl
  split
  · exact Or.inl rfl
  split
  · exact Or.inl rfl
  rename_i resp heq hst
  exact Or.inr (hread _ _ _ heq)

/-- C9 (amended): `CACerts` has no partial-success state — whenever its error is non-nil the bundle is nil and the checksum empty; and `get` has the same property on every path other than its two final operations: in any world where a successfully fetched response carries no read error and the hardware retrieval reports no error, a non-nil error from `get` comes with a nil body and an empty checksum. (Each of those two final operations genuinely breaks the property: see the counterexample.) -/
theorem cacerts_error_implies_empty
    (w : World) (server token path : String) (ct : Bool)
    (hread : ∀ cfg req resp, w.doReq cfg req = .ok resp → resp.bodyErr = none)
    (htpm : ∀ c u, (w.tpmGet c u).2 = none) :
    ((CACerts w server token ct).2.2 ≠ none →
      (CACerts w server token ct).1 = none ∧ (CACerts w server token ct).2.1 = "")
    ∧ ((get w server token path ct).2.2 ≠ none →
      (get w server token path ct).1 = none ∧ (get w server token path ct).2.1 = "") := by
  constructor
  · intro h
    rcases cacerts_error_shape_aux w server token ct with he | he
    · rw [he]
      exact ⟨rfl, rfl⟩
    · exact absurd he h
  · intro h
    rcases get_error_shape_aux w server token path ct hread htpm with he | he
    · rw [he]
      exact ⟨rfl, rfl⟩
    · exact absurd he h

/-- Witness for C9 (amended) in a world where nonce generation and URL parsing fail, so both `CACerts` and `get` return errors; its oracles trivially satisfy the two final-operation conditions. -/
theorem cacerts_error_implies_empty_witness :
    ((CACerts WErr "https://example.com" "t" true).2.2 ≠ none →
      (CACerts WErr "https://example.com" "t" true).1 = none
      ∧ (CACerts WErr "https://example.com" "t" true).2.1 = "")
    ∧ ((get WErr "https://example.com" "t" "/r" true).2.2 ≠ none →
      (get WErr "https://example.com" "t" "/r" true).1 = none
      ∧ (get WErr "https://example.com" "t" "/r" true).2.1 = "") :=
  cacerts_error_implies_empty WErr "https://example.com" "t" "/r" true
    (fun _ _ _ h => Except.noConfusion h) (fun _ _ => rfl)

/-- Helper: the fully successful bootstrap outcome of `CACerts` — probe failed, 200 response, matching header, non-empty body — without evaluating the hash. -/
theorem cacerts_ok_helper
    (w : World) (server token : String) (ct : Bool) (nonce perr : String)
    (u : Url) (resp : HttpResponse)
    (hn : w.nonce = .ok nonce)
    (hu : w.parseURL server = .ok u)
    (hp : w.probe (caCertsRequestURL ct u.host) = some perr)
    (hr : w.newRequestErr (caCertsRequestURL ct u.host) = none)
    (hdo : w.insecureDo (bootstrapRequest (caCertsRequestURL ct u.host) nonce token)
        = .ok resp)
    (hb : resp.bodyErr = none)
    (hst : resp.statusCode = 200)
    (hx : resp.xCattleHash = hash token nonce resp.body)
    (hne : resp.body ≠ []) :
    CACerts w server token ct = (some resp.body, hashHex resp.body, none) := by
  have hC : CACerts w server token ct =
      bootstrapPhase w token nonce (caCertsRequestURL ct u.host) := by
    unfold CACerts
    rw [hn, hu]
    dsimp only
    rw [hp]
  unfold bootstrapPhase at hC
  rw [hr, hdo] at hC
  dsimp only at hC
  rw [hb, hst] at hC
  simp only [ne_eq, not_true_eq_false, if_false, ite_false, reduceIte] at hC
  rw [hC, if_neg (by simp [hx]), if_neg (by simp [hne])]

/-- Helper: the cluster-token resource fetch of `get` on a 200 response returns the body, the `CACerts` checksum, and the read error as they are. -/
theorem get_cluster_fetch_helper
    (w : World) (server token path : String) (u : Url)
    (cacert : Option (List Nat)) (chk : String) (resp : HttpResponse)
    (hu : w.parseURL server = .ok u)
    (hca : CACerts w server token true = (cacert, chk, none))
    (hr : w.newRequestErr (urlString { u with path := path }) = none)
    (hdo : w.doReq (fetchClientConfig cacert)
        (resourceRequest { u with path := path } token true) = .ok resp)
    (hst : resp.statusCode = 200) :
    get w server token path true = (some resp.body, chk, resp.bodyErr) := by
  unfold get
  simp [hu, hca, hr, hdo, hst]

/-- Helper: the hardware path of `get` returns `tpm.Get`'s data and error as they are, together with the `CACerts` checksum. -/
theorem get_tpm_helper
    (w : World) (server token token2 path : String) (u : Url)
    (cacert : Option (List Nat)) (chk : String)
    (hu : w.parseURL server = .ok u)
    (hres : w.resolveToken token = .ok (true, token2))
    (hca : CACerts w server token2 false = (cacert, chk, none)) :
    get w server token path false =
      ((w.tpmGet cacert (urlString { u with path := path })).1, chk,
       (w.tpmGet cacert (urlString { u with path := path })).2) := by
  unfold get
  simp [hu, hres, hca]

set_option maxHeartbeats 1600000 in
/-- Counterexample to C9 as stated: when the final body read fails after a verified bootstrap (`W9`), or the hardware retrieval returns data together with an error (`WTpmErr`), `get` returns that body and the non-empty `CACerts` checksum alongside a non-nil error. -/
theorem get_error_with_checksum_counterexample :
    get W9 "https://example.com" "t" "/r" true =
      (some [7], hashHex [1], some "read failed")
    ∧ get WTpmErr "https://example.com" "t" "/r" false =
      (some [8], hashHex [1], some "tpm read failed")
    ∧ hashHex [1] ≠ "" := by
  have hca9 : CACerts W9 "https://example.com" "t" true =
      (some [1], hashHex [1], none) :=
    cacerts_ok_helper W9 "https://example.com" "t" true "n"
      "x509: unknown authority" sampleUrl
      ⟨200, "200 OK", hash "t" "n" [1], [1], none⟩
      rfl rfl rfl rfl rfl rfl rfl rfl (by decide)
  have hcaT : CACerts WTpmErr "https://example.com" "rt" false =
      (some [1], hashHex [1], none) :=
    cacerts_ok_helper WTpmErr "https://example.com" "rt" false "n"
      "x509: unknown authority" sampleUrl
      ⟨200, "200 OK", hash "rt" "n" [1], [1], none⟩
      rfl rfl rfl rfl rfl rfl rfl rfl (by decide)
  refine ⟨?_, ?_, by decide⟩
  · exact get_cluster_fetch_helper W9 "https://example.com" "t" "/r" sampleUrl
      (some [1]) (hashHex [1]) ⟨200, "200 OK", "", [7], some "read failed"⟩
      rfl hca9 rfl rfl rfl
  · rw [get_tpm_helper WTpmErr "https://example.com" "t" "rt" "/r" sampleUrl
      (some [1]) (hashHex [1]) rfl rfl hcaT]
    rfl

/-- C10: when the cluster-scoped `CACerts` call succeeds with an empty bundle, `ToFile` succeeds indistinctly, returning a descriptor with empty content (base64 of the empty bundle), the fixed path `/etc/pki/trust/anchors/additional-ca.pem`, permissions `"0644"`, and a nil error. -/
theorem toFile_empty_bundle (w : World) (server token : String)
    (h : CACerts w server token true = (none, "", none)) :
    ToFile w server token =
      .ok { content := "", path := "/etc/pki/trust/anchors/additional-ca.pem",
            permissions := "0644" }
    ∧ base64Encode [] = "" := by
  constructor
  · unfold ToFile
    rw [h]
    dsimp only
    rfl
  · rfl

/-- Witness for C10 in a world where the probe succeeds. -/
theorem toFile_empty_bundle_witness :
    ToFile WProbe "https://example.com" "t" =
      .ok { content := "", path := "/etc/pki/trust/anchors/additional-ca.pem",
            permissions := "0644" }
    ∧ base64Encode [] = "" :=
  toFile_empty_bundle WProbe "https://example.com" "t" (by decide)

end Cacerts
